import Mathlib

/-!
Shallow embedding of the CXL socket transport layer of opencxl-qemu
(src/hw/pci-bridge/cxl_socket_transport.c) and proofs about its
framing reader, packet catalog, packet encoders and wait loops.

Machine integers are modelled as `Nat` with explicit `% 2^w` where the C
code's unsigned wrap-around matters.  The byte-stream socket is modelled
by the sizes of the chunks successive `read` calls deliver; the contents
of received bytes are not modelled except for the system header's declared
`payload_length`, which the code parses and acts on.  Real time (the
5-second deadline) is not modelled: a socket that stops delivering data is
represented by an exhausted chunk list, which takes the same `return false`
path as the timeout.
-/

namespace CxlSocketTransport

/-- Constant MAX_PAYLOAD_SIZE from cxl_socket_transport.c (the scratch
receive buffer size and packet-catalog entry size, 512 bytes). -/
def MAX_PAYLOAD_SIZE : Nat := 512

/-- Constant MAX_TAG from cxl_socket_transport.c (packet catalog capacity). -/
def MAX_TAG : Nat := 512

/-- Modelled from the spec: CXL_MEM_ACCESS_UNIT is declared in
hw/cxl/cxl_socket_transport.h, which is not under src/; the spec fixes the
CXL.mem access unit at 64 bytes ("address divided by the fixed access
unit, 64 bytes"). -/
def CXL_MEM_ACCESS_UNIT : Nat := 64

/-- Value 2^64, the modulus of C `size_t` / `uint64_t` arithmetic on the
64-bit hosts this code targets. -/
def UINT64_MOD : Nat := 18446744073709551616

/-- Unsigned 64-bit (size_t) subtraction `a - b`, wrapping modulo 2^64,
as performed by `system_header->payload_length - system_header_size` and
`buffer_size - buffer_offset` in process_incoming_packets. -/
def sizeTSub (a b : Nat) : Nat :=
  (a % UINT64_MOD + UINT64_MOD - b % UINT64_MOD) % UINT64_MOD

/-- Modelled from the spec: struct sizeof constants of the packed packet
types declared in hw/cxl/cxl_socket_transport.h, which is not under src/.
Every sizeof the .c file takes is kept as an abstract parameter; the spec
only fixes relations between them (for example that the M2S
request-with-data packet is its headers followed by one 64-byte access
unit of data). -/
structure Sizes where
  systemHeader : Nat
  baseSideband : Nat
  sidebandConnReq : Nat
  s2mNdr : Nat
  s2mDrs : Nat
  m2sReq : Nat
  m2sRwdHeader : Nat
  ioMemRd : Nat
  ioMemWr32 : Nat
  ioMemWr64 : Nat
  cfgRd : Nat
  cfgWr : Nat
  ioCpl : Nat
  ioCplData32 : Nat
  ioCplData64 : Nat
deriving DecidableEq, Repr

/-- Modelled from the spec: sizeof(cxl_mem_m2s_rwd_packet_t), the headers
followed by one fixed CXL.mem access unit of data ("payload length equals
header size plus the fixed CXL.mem access unit size"). -/
def m2sRwdPacketSize (sz : Sizes) : Nat := sz.m2sRwdHeader + CXL_MEM_ACCESS_UNIT

/-- Concrete, plausible instantiation of the abstract struct sizes, used
only to instantiate universally quantified theorems at a concrete point. -/
def exampleSizes : Sizes where
  systemHeader := 4
  baseSideband := 8
  sidebandConnReq := 12
  s2mNdr := 12
  s2mDrs := 76
  m2sReq := 16
  m2sRwdHeader := 16
  ioMemRd := 20
  ioMemWr32 := 24
  ioMemWr64 := 28
  cfgRd := 16
  cfgWr := 20
  ioCpl := 16
  ioCplData32 := 20
  ioCplData64 := 24

/-- Modelled from the spec: htons of hw/cxl/cxl_endian.h (not under src/),
conversion of a 16-bit value to network byte order, i.e. the byte swap of
the low 16 bits on the little-endian hosts this code targets. -/
def htons (x : Nat) : Nat :=
  (x % 256) * 256 + x / 256 % 256

/-- Modelled from the spec: htonll of hw/cxl/cxl_endian.h (not under src/),
conversion of a 64-bit value to network byte order, i.e. the reversal of
the eight bytes of the value on a little-endian host. -/
def htonll (x : Nat) : Nat :=
  x % 256 * 16777216 * 16777216 * 256 +
  x / 256 % 256 * 16777216 * 16777216 +
  x / 65536 % 256 * 16777216 * 65536 +
  x / 16777216 % 256 * 16777216 * 256 +
  x / 4294967296 % 256 * 16777216 +
  x / 1099511627776 % 256 * 65536 +
  x / 281474976710656 % 256 * 256 +
  x / 72057594037927936 % 256

/-- QEMU extract16(value, start, length): bits [start+length-1:start]. -/
def extract16 (value start length : Nat) : Nat :=
  (value % 65536) >>> start &&& (2 ^ length - 1)

/-- QEMU extract64(value, start, length): bits [start+length-1:start]. -/
def extract64 (value start length : Nat) : Nat :=
  (value % UINT64_MOD) >>> start &&& (2 ^ length - 1)

/-- Macro EXTRACT_UPPER_2(length) = extract16(length, 8, 2). -/
def EXTRACT_UPPER_2 (length : Nat) : Nat := extract16 length 8 2

/-- Macro EXTRACT_LOWER_8(length) = extract16(length, 0, 8). -/
def EXTRACT_LOWER_8 (length : Nat) : Nat := extract16 length 0 8

/-- Macro EXTRACT_UPPER_56(address) = extract64(address, 2, 56). -/
def EXTRACT_UPPER_56 (address : Nat) : Nat := extract64 address 2 56

/-- Macro EXTRACT_LOWER_6(address) = extract64(address, 58, 6). -/
def EXTRACT_LOWER_6 (address : Nat) : Nat := extract64 address 58 6

/-!
Framing reader.  wait_for_payload's successive `read(socket_fd,
&buffer[total_bytes_read], remaining_size)` calls are modelled by a list
of chunk sizes: element `c` means the socket had `c` bytes available for
that read call, so the call returns `min c remaining_size` bytes (`0`
models a read error / closed peer).  The function result is paired with
the list of `(start, length)` byte ranges of the destination buffer the
read calls wrote, recorded, exactly as in the C code, at the moment
`read` returns -- before the subsequent overflow check runs.
-/

/-- Loop body of wait_for_payload from cxl_socket_transport.c: accumulate
reads until `payload_size` bytes have arrived; a read returning 0 fails;
after each read, fail if the accumulated total exceeds `buffer_size`.
The timeout branch is represented by chunk exhaustion. -/
def waitLoop (buffer_size payload_size : Nat) :
    List Nat → Nat → List (Nat × Nat) → Bool × List (Nat × Nat)
  | [], total, ws =>
    if payload_size ≤ total then (true, ws) else (false, ws)
  | c :: rest, total, ws =>
    if payload_size ≤ total then (true, ws)
    else
      let remaining := payload_size - total
      let br := min c remaining
      if br = 0 then (false, ws)
      else
        let ws2 := ws ++ [(total, br)]
        if buffer_size < br + total then (false, ws2)
        else waitLoop buffer_size payload_size rest (total + br) ws2

/-- Function wait_for_payload(socket_fd, buffer, buffer_size, payload_size)
of cxl_socket_transport.c, over the chunk-list socket model. -/
def wait_for_payload (buffer_size payload_size : Nat) (chunks : List Nat) :
    Bool × List (Nat × Nat) :=
  waitLoop buffer_size payload_size chunks 0 []

/-- Function wait_for_system_header of cxl_socket_transport.c: a
wait_for_payload call for sizeof(system_header_packet_t) bytes. -/
def wait_for_system_header (sz : Sizes) (buffer_size : Nat)
    (chunks : List Nat) : Bool × List (Nat × Nat) :=
  wait_for_payload buffer_size sz.systemHeader chunks

/-- Predicate: some recorded write range ends beyond the destination
buffer's capacity `cap` (an out-of-bounds write). -/
def hasOobWrite (cap : Nat) (ws : List (Nat × Nat)) : Bool :=
  ws.any fun w => cap < w.1 + w.2

/-- Function get_next_tag of cxl_socket_transport.c: the body is a bare
`return 0` (the tag counter is commented out). -/
def get_next_tag : Nat := 0

/-- Input consumed by one process_incoming_packets call: the chunk sizes
delivered while reading the system header, the `payload_length` value the
received header declares, and the chunk sizes delivered while reading the
remaining payload. -/
structure SocketInput where
  hdrChunks : List Nat
  payloadLen : Nat
  bodyChunks : List Nat

/-- Result of process_incoming_packets: `recvFail` is a `return false`
(header or payload read failed), `fatalAssert` is the process-terminating
`assert(packet_entries[tag].packet_size == 0)` firing, and `stored tag c`
is a `return true` after filing the packet at `tag`, with `c` the updated
catalog (tag → packet_size) map. -/
inductive ProcOutcome where
  | recvFail
  | fatalAssert
  | stored (tag : Nat) (newCatalog : Nat → Nat)

/-- Function process_incoming_packets of cxl_socket_transport.c.  The
catalog is the `packet_entries[t].packet_size` map (byte contents are not
modelled).  Also returns the list of buffer byte ranges written by the
read calls, with phase-two ranges shifted by the `buffer_offset` the code
applies (`&buffer[buffer_offset]`). -/
def process_incoming_packets (sz : Sizes) (catalog : Nat → Nat)
    (inp : SocketInput) : ProcOutcome × List (Nat × Nat) :=
  let buffer_size := MAX_PAYLOAD_SIZE
  let r1 := wait_for_system_header sz buffer_size inp.hdrChunks
  if !r1.1 then (.recvFail, r1.2)
  else
    let system_header_size := sz.systemHeader
    let remaining_payload_size := sizeTSub inp.payloadLen system_header_size
    let buffer_offset := system_header_size
    let buffer_size2 := sizeTSub buffer_size buffer_offset
    let r2 := wait_for_payload buffer_size2 remaining_payload_size inp.bodyChunks
    let ws := r1.2 ++ r2.2.map fun w => (buffer_offset + w.1, w.2)
    if !r2.1 then (.recvFail, ws)
    else
      let tag := 0
      if catalog tag ≠ 0 then (.fatalAssert, ws)
      else (.stored tag (Function.update catalog tag inp.payloadLen), ws)

/-- Function release_packet_entry of cxl_socket_transport.c. -/
def release_packet_entry (catalog : Nat → Nat) (tag : Nat) :
    Bool × (Nat → Nat) :=
  if MAX_TAG ≤ tag then (false, catalog)
  else (true, Function.update catalog tag 0)

/-!
Packet encoders.  Field values are modelled as the numbers the C code
stores; enumeration constants declared in the missing header are modelled
as symbolic inductive values, since the .c file only ever assigns and
compares them.  Each send function also returns the tag it wrote through
its out-parameter and the boolean `write(socket_fd, ...) != -1` result;
the socket write's success is an environment input `writeOk`.  The packet
component of a send's result is always the byte buffer that was passed to
`write`: the C code issues the `write` call unconditionally once it
reaches it.
-/

/-- Payload-type values of the system header (symbolic). -/
inductive payload_type_t where
  | SIDEBAND | CXL_IO | CXL_MEM
deriving DecidableEq, Repr

/-- Values of cxl_io_fmt_type_t used by the encoders (symbolic). -/
inductive cxl_io_fmt_type_t where
  | MRD_32B | MRD_64B | MWR_32B | MWR_64B
  | CFG_RD0 | CFG_RD1 | CFG_WR0 | CFG_WR1
deriving DecidableEq, Repr

/-- CXL.mem channel discriminator values (symbolic). -/
inductive cxl_mem_channel_t where
  | M2S_REQ | M2S_RWD
deriving DecidableEq, Repr

/-- CXL.mem memory opcode values (symbolic). -/
inductive mem_opcode_t where
  | MEM_RD | MEM_WR
deriving DecidableEq, Repr

/-- CXL.mem M2S request-with-data packet as built by
send_cxl_mem_mem_write (system header, cxl.mem header, m2s rwd header,
64-byte data payload). -/
structure cxl_mem_m2s_rwd_packet_t where
  payload_type : payload_type_t
  payload_length : Nat
  cxl_mem_channel : cxl_mem_channel_t
  mem_opcode : mem_opcode_t
  addr : Nat
  data : List Nat
deriving DecidableEq, Repr

/-- CXL.mem M2S request packet as built by send_cxl_mem_mem_read. -/
structure cxl_mem_m2s_req_packet_t where
  payload_type : payload_type_t
  payload_length : Nat
  cxl_mem_channel : cxl_mem_channel_t
  mem_opcode : mem_opcode_t
  addr : Nat
deriving DecidableEq, Repr

/-- Function send_cxl_mem_mem_write of cxl_socket_transport.c.  The addr
bitfield holds `hpa >> 6`; modelled from the spec, the field is 58 bits
wide ("a 58-bit-shifted address"), hence the `% 2^58` bitfield
truncation, vacuous for any `hpa < 2^64`. -/
def send_cxl_mem_mem_write (sz : Sizes) (writeOk : Bool) (hpa : Nat)
    (data : List Nat) : Nat × cxl_mem_m2s_rwd_packet_t × Bool :=
  let tag := get_next_tag
  (tag,
   { payload_type := .CXL_MEM
     payload_length := m2sRwdPacketSize sz
     cxl_mem_channel := .M2S_RWD
     mem_opcode := .MEM_WR
     addr := (hpa >>> 6) % 2 ^ 58
     data := data.take CXL_MEM_ACCESS_UNIT },
   writeOk)

/-- Function send_cxl_mem_mem_read of cxl_socket_transport.c. -/
def send_cxl_mem_mem_read (sz : Sizes) (writeOk : Bool) (hpa : Nat) :
    Nat × cxl_mem_m2s_req_packet_t × Bool :=
  let tag := get_next_tag
  (tag,
   { payload_type := .CXL_MEM
     payload_length := sz.m2sReq
     cxl_mem_channel := .M2S_REQ
     mem_opcode := .MEM_RD
     addr := (hpa >>> 6) % 2 ^ 58 },
   writeOk)

/-- Function round_up_to_nearest_dword of cxl_socket_transport.c, on
uint32 arithmetic: `(number + 4 - 1) & ~(4 - 1)`. -/
def round_up_to_nearest_dword (number : Nat) : Nat :=
  ((number + 3) % 4294967296) &&& 4294967292

/-- CXL.io memory read request packet as built by send_cxl_io_mem_read. -/
structure cxl_io_mem_rd_packet_t where
  payload_type : payload_type_t
  payload_length : Nat
  fmt_type : cxl_io_fmt_type_t
  length_upper : Nat
  length_lower : Nat
  req_id : Nat
  tag : Nat
  addr_lower : Nat
  addr_upper : Nat
deriving DecidableEq, Repr

/-- CXL.io memory write request packet with 32-bit data payload. -/
structure cxl_io_mem_wr_packet_32b_t where
  payload_type : payload_type_t
  payload_length : Nat
  fmt_type : cxl_io_fmt_type_t
  length_upper : Nat
  length_lower : Nat
  req_id : Nat
  tag : Nat
  addr_lower : Nat
  addr_upper : Nat
  data : Nat
deriving DecidableEq, Repr

/-- CXL.io memory write request packet with 64-bit data payload. -/
structure cxl_io_mem_wr_packet_64b_t where
  payload_type : payload_type_t
  payload_length : Nat
  fmt_type : cxl_io_fmt_type_t
  length_upper : Nat
  length_lower : Nat
  req_id : Nat
  tag : Nat
  addr_lower : Nat
  addr_upper : Nat
  data : Nat
deriving DecidableEq, Repr

/-- Result of a send that contains `assert` statements: `assertFail` is a
process-terminating assertion failure, `sent p ok` is a completed build
whose packet `p` was handed to `write` with result `ok`. -/
inductive IoMemReadResult where
  | assertFail
  | sent (p : cxl_io_mem_rd_packet_t) (successful : Bool)
deriving DecidableEq, Repr

/-- Function send_cxl_io_mem_read of cxl_socket_transport.c:
`assert(size % 4 == 0)`, fmt_type selected by `size == 4`, header length
fields split by EXTRACT_UPPER_2 / EXTRACT_LOWER_8, address split into
`(hpa & 0xFF) >> 2` and `htonll(hpa) & 0xFFFFFFFFFFFFFF`. -/
def send_cxl_io_mem_read (sz : Sizes) (writeOk : Bool) (hpa size : Nat) :
    Nat × IoMemReadResult :=
  let tag := get_next_tag
  (tag,
   if size % 4 ≠ 0 then .assertFail
   else
     let hdr_length := round_up_to_nearest_dword size / 4
     .sent
       { payload_type := payload_type_t.CXL_IO
         payload_length := sz.ioMemRd
         fmt_type := if size = 4 then .MRD_32B else .MRD_64B
         length_upper := EXTRACT_UPPER_2 hdr_length
         length_lower := EXTRACT_LOWER_8 hdr_length
         req_id := 0
         tag := tag
         addr_lower := (hpa &&& 0xFF) >>> 2
         addr_upper := htonll hpa &&& 0xFFFFFFFFFFFFFF }
       writeOk)

/-- Result of send_cxl_io_mem_write: either an assertion failure or a
sent packet of the 32-bit or 64-bit variant. -/
inductive IoMemWriteResult where
  | assertFail
  | sent32 (p : cxl_io_mem_wr_packet_32b_t) (successful : Bool)
  | sent64 (p : cxl_io_mem_wr_packet_64b_t) (successful : Bool)
deriving DecidableEq, Repr

/-- Function send_cxl_io_mem_write of cxl_socket_transport.c:
`assert(size % 4 == 0)`; if `size > 4` then `assert(size == 8)` and
`assert(val < 0xFFFFFFFFFFFFFFFF)` and the 64-bit variant is built with
`data = val`; otherwise `assert(size == 4)` and `assert(val < 0xFFFFFFFF)`
and the 32-bit variant is built with `data = (uint32_t)(val &
0xFFFFFFFF)`. -/
def send_cxl_io_mem_write (sz : Sizes) (writeOk : Bool)
    (hpa val size : Nat) : Nat × IoMemWriteResult :=
  let tag := get_next_tag
  (tag,
   if size % 4 ≠ 0 then .assertFail
   else
     let hdr_length := round_up_to_nearest_dword size / 4
     if 4 < size then
       if size ≠ 8 then .assertFail
       else if ¬ val < 0xFFFFFFFFFFFFFFFF then .assertFail
       else
         .sent64
           { payload_type := payload_type_t.CXL_IO
             payload_length := sz.ioMemWr64
             fmt_type := .MWR_64B
             length_upper := EXTRACT_UPPER_2 hdr_length
             length_lower := EXTRACT_LOWER_8 hdr_length
             req_id := 0
             tag := tag
             addr_lower := (hpa &&& 0xFF) >>> 2
             addr_upper := htonll hpa &&& 0xFFFFFFFFFFFFFF
             data := val }
           writeOk
     else
       if size ≠ 4 then .assertFail
       else if ¬ val < 0xFFFFFFFF then .assertFail
       else
         .sent32
           { payload_type := payload_type_t.CXL_IO
             payload_length := sz.ioMemWr32
             fmt_type := .MWR_32B
             length_upper := EXTRACT_UPPER_2 hdr_length
             length_lower := EXTRACT_LOWER_8 hdr_length
             req_id := 0
             tag := tag
             addr_lower := (hpa &&& 0xFF) >>> 2
             addr_upper := htonll hpa &&& 0xFFFFFFFFFFFFFF
             data := val &&& 0xFFFFFFFF }
           writeOk)

/-- Configuration request header cxl_io_cfg_req_header_t as filled by
fill_cxl_io_cfg_req_packet. -/
structure cxl_io_cfg_req_header_t where
  req_id : Nat
  tag : Nat
  first_dw_be : Nat
  last_dw_be : Nat
  dest_id : Nat
  ext_reg_num : Nat
  reg_num : Nat
deriving DecidableEq, Repr

/-- All-zero configuration request header: the value the header keeps in
a `= {}`-initialized packet when fill_cxl_io_cfg_req_packet rejects the
request before writing any field. -/
def zeroCfgReqHeader : cxl_io_cfg_req_header_t :=
  { req_id := 0, tag := 0, first_dw_be := 0, last_dw_be := 0
    dest_id := 0, ext_reg_num := 0, reg_num := 0 }

/-- Byte-enable loop of fill_cxl_io_cfg_req_packet:
`for (i = 0; i < size; ++i) { first_dw_be |= 1 << offset; offset++; }`,
with first_dw_be a uint8 (hence the `% 256` store truncation). -/
def firstDwBeLoop : Nat → Nat → Nat → Nat
  | 0, _, be => be
  | n + 1, offset, be => firstDwBeLoop n (offset + 1) ((be ||| 1 <<< offset) % 256)

/-- Function fill_cxl_io_cfg_req_packet of cxl_socket_transport.c:
rejects `cfg_addr > 0xFFF` and requests crossing a dword boundary
(`(cfg_addr & 0x03) + size > 4`) before writing any header field;
otherwise fills the header and reports success. -/
def fill_cxl_io_cfg_req_packet (id cfg_addr size req_id tag : Nat) :
    Option cxl_io_cfg_req_header_t :=
  if 0xFFF < cfg_addr then none
  else
    let offset := cfg_addr &&& 0x03
    if 4 < offset + size then none
    else some
      { req_id := htons req_id
        tag := tag
        first_dw_be := firstDwBeLoop size offset 0
        last_dw_be := 0
        dest_id := htons id
        ext_reg_num := (cfg_addr >>> 8) &&& 0xF
        reg_num := (cfg_addr >>> 2) &&& 0x3F }

/-- CXL.io configuration read request packet as built by
send_cxl_io_config_space_read. -/
structure cxl_io_cfg_rd_packet_t where
  payload_type : payload_type_t
  payload_length : Nat
  fmt_type : cxl_io_fmt_type_t
  length_upper : Nat
  length_lower : Nat
  cfg_req_header : cxl_io_cfg_req_header_t
deriving DecidableEq, Repr

/-- CXL.io configuration write request packet as built by
send_cxl_io_config_space_write. -/
structure cxl_io_cfg_wr_packet_t where
  payload_type : payload_type_t
  payload_length : Nat
  fmt_type : cxl_io_fmt_type_t
  length_upper : Nat
  length_lower : Nat
  cfg_req_header : cxl_io_cfg_req_header_t
  value : Nat
deriving DecidableEq, Repr

/-- Function send_cxl_io_config_space_read of cxl_socket_transport.c.
The C code calls fill_cxl_io_cfg_req_packet and DISCARDS its boolean
result: when fill rejects the request the `= {}`-zero-initialized
cfg_req_header is left as is (hence `.getD zeroCfgReqHeader`), and the
packet is still passed to `write` and the function still returns the
write's success. -/
def send_cxl_io_config_space_read (sz : Sizes) (writeOk : Bool)
    (bdf offset size : Nat) (type0 : Bool) :
    Nat × cxl_io_cfg_rd_packet_t × Bool :=
  let tag := get_next_tag
  (tag,
   { payload_type := payload_type_t.CXL_IO
     payload_length := sz.cfgRd
     length_lower := 1
     length_upper := 0
     fmt_type := if type0 then .CFG_RD0 else .CFG_RD1
     cfg_req_header :=
       (fill_cxl_io_cfg_req_packet bdf offset size 0 tag).getD
         zeroCfgReqHeader },
   writeOk)

/-- Function send_cxl_io_config_space_write of cxl_socket_transport.c:
same discarded-validation structure as send_cxl_io_config_space_read,
plus the 4-byte value field. -/
def send_cxl_io_config_space_write (sz : Sizes) (writeOk : Bool)
    (bdf offset val size : Nat) (type0 : Bool) :
    Nat × cxl_io_cfg_wr_packet_t × Bool :=
  let tag := get_next_tag
  (tag,
   { payload_type := payload_type_t.CXL_IO
     payload_length := sz.cfgWr
     length_lower := 1
     length_upper := 0
     fmt_type := if type0 then .CFG_WR0 else .CFG_WR1
     cfg_req_header :=
       (fill_cxl_io_cfg_req_packet bdf offset size 0 tag).getD
         zeroCfgReqHeader
     value := val % 4294967296 },
   writeOk)

/-!
Wait loops (Transaction Correlator).  Each variant loops: inspect the
catalog entry for the awaited tag; return it when its size matches the
expected sizeof; otherwise call process_incoming_packets and retry, or
give up (`NULL`) when it fails.  The socket is modelled as the list of
per-packet inputs successive process_incoming_packets calls consume; an
exhausted list models a receive failure (timeout / closed peer).  The
models assume `tag < MAX_TAG`, as every caller in the .c file guarantees
(the code would dereference a NULL entry otherwise).
-/

/-- Result of a wait loop: `fatalAssert` is a process-terminating
assertion failure (its own size assert, or the store assert inside
process_incoming_packets), `conFailed` is the NULL / zero return after
process_incoming_packets fails, and `got s` is a successful return of
the catalog entry whose packet_size is `s`. -/
inductive WaitOutcome where
  | fatalAssert
  | conFailed
  | got (size : Nat)
deriving DecidableEq, Repr

/-- Function wait_for_base_sideband_packet of cxl_socket_transport.c
(always tag 0): returns the entry once its size equals
sizeof(base_sideband_packet_t); no size assertion of its own. -/
def wait_for_base_sideband_packet (sz : Sizes) (catalog : Nat → Nat) :
    List SocketInput → WaitOutcome
  | [] =>
    if catalog 0 = sz.baseSideband then .got (catalog 0) else .conFailed
  | inp :: rest =>
    if catalog 0 = sz.baseSideband then .got (catalog 0)
    else
      match (process_incoming_packets sz catalog inp).1 with
      | .recvFail => .conFailed
      | .fatalAssert => .fatalAssert
      | .stored _ nc => wait_for_base_sideband_packet sz nc rest

/-- Function wait_for_cxl_mem_completion of cxl_socket_transport.c:
returns the entry once its size equals sizeof(cxl_mem_s2m_ndr_packet_t);
no size assertion of its own. -/
def wait_for_cxl_mem_completion (sz : Sizes) (tag : Nat)
    (catalog : Nat → Nat) : List SocketInput → WaitOutcome
  | [] =>
    if catalog tag = sz.s2mNdr then .got (catalog tag) else .conFailed
  | inp :: rest =>
    if catalog tag = sz.s2mNdr then .got (catalog tag)
    else
      match (process_incoming_packets sz catalog inp).1 with
      | .recvFail => .conFailed
      | .fatalAssert => .fatalAssert
      | .stored _ nc => wait_for_cxl_mem_completion sz tag nc rest

/-- Function wait_for_cxl_mem_mem_data of cxl_socket_transport.c:
returns the entry once its size equals sizeof(cxl_mem_s2m_drs_packet_t);
no size assertion of its own. -/
def wait_for_cxl_mem_mem_data (sz : Sizes) (tag : Nat)
    (catalog : Nat → Nat) : List SocketInput → WaitOutcome
  | [] =>
    if catalog tag = sz.s2mDrs then .got (catalog tag) else .conFailed
  | inp :: rest =>
    if catalog tag = sz.s2mDrs then .got (catalog tag)
    else
      match (process_incoming_packets sz catalog inp).1 with
      | .recvFail => .conFailed
      | .fatalAssert => .fatalAssert
      | .stored _ nc => wait_for_cxl_mem_mem_data sz tag nc rest

/-- Function wait_for_cxl_io_completion of cxl_socket_transport.c: once
the entry is populated (`packet_size > 0`) it
`assert(entry->packet_size == sizeof(cxl_io_completion_packet_t))`
before returning it. -/
def wait_for_cxl_io_completion (sz : Sizes) (tag : Nat)
    (catalog : Nat → Nat) : List SocketInput → WaitOutcome
  | [] =>
    if 0 < catalog tag then
      if catalog tag = sz.ioCpl then .got (catalog tag) else .fatalAssert
    else .conFailed
  | inp :: rest =>
    if 0 < catalog tag then
      if catalog tag = sz.ioCpl then .got (catalog tag) else .fatalAssert
    else
      match (process_incoming_packets sz catalog inp).1 with
      | .recvFail => .conFailed
      | .fatalAssert => .fatalAssert
      | .stored _ nc => wait_for_cxl_io_completion sz tag nc rest

/-- Function wait_for_cxl_io_completion_data of cxl_socket_transport.c:
once the entry is populated it asserts the size is the 32-bit or the
64-bit completion-with-data packet size before returning it. -/
def wait_for_cxl_io_completion_data (sz : Sizes) (tag : Nat)
    (catalog : Nat → Nat) : List SocketInput → WaitOutcome
  | [] =>
    if 0 < catalog tag then
      if catalog tag = sz.ioCplData32 ∨ catalog tag = sz.ioCplData64 then
        .got (catalog tag)
      else .fatalAssert
    else .conFailed
  | inp :: rest =>
    if 0 < catalog tag then
      if catalog tag = sz.ioCplData32 ∨ catalog tag = sz.ioCplData64 then
        .got (catalog tag)
      else .fatalAssert
    else
      match (process_incoming_packets sz catalog inp).1 with
      | .recvFail => .conFailed
      | .fatalAssert => .fatalAssert
      | .stored _ nc => wait_for_cxl_io_completion_data sz tag nc rest

/-!
Helper lemmas shared by the claim theorems.
-/

/-- Inversion for a successful store: process_incoming_packets returns
`.stored` only at tag 0, only when the tag-0 entry was empty, and the new
catalog is the old one with the declared payload length filed at 0. -/
theorem process_incoming_packets_stored {sz : Sizes} {catalog : Nat → Nat}
    {inp : SocketInput} {t : Nat} {nc : Nat → Nat}
    (h : (process_incoming_packets sz catalog inp).1 = .stored t nc) :
    t = 0 ∧ catalog 0 = 0 ∧ nc = Function.update catalog 0 inp.payloadLen := by
  simp only [process_incoming_packets] at h
  split at h
  · simp at h
  · split at h
    · simp at h
    · split at h
      · simp at h
      · next hc =>
        simp only [ProcOutcome.stored.injEq] at h
        exact ⟨h.1.symm, not_not.mp hc, h.2.symm⟩

/-- C10: process_incoming_packets computes the remaining payload length
as the unsigned size_t subtraction `payload_length - system_header_size`
(`sizeTSub`), with no lower-bound check: a declared length below the
header size wraps modulo 2^64 to a huge count (in particular larger than
the whole 512-byte buffer), and only a declared length at least the
header size yields the intended difference. -/
theorem c10_remaining_payload_wraps (L sh : Nat) (hL : L < UINT64_MOD)
    (hsh : sh < UINT64_MOD) :
    (L < sh → sizeTSub L sh = UINT64_MOD - (sh - L)) ∧
    (sh ≤ L → sizeTSub L sh = L - sh) ∧
    (sh ≤ MAX_PAYLOAD_SIZE → L < sh → MAX_PAYLOAD_SIZE < sizeTSub L sh) := by
  simp only [sizeTSub, UINT64_MOD, MAX_PAYLOAD_SIZE] at hL hsh ⊢
  omega

/-- Witness for C10 at concrete inputs: a declared length of 2 against a
4-byte header wraps to 2^64 - 2, while a declared length of 600 yields
the intended 596. -/
theorem c10_witness :
    sizeTSub 2 4 = UINT64_MOD - 2 ∧ sizeTSub 600 4 = 596 :=
  ⟨(c10_remaining_payload_wraps 2 4 (by decide) (by decide)).1 (by decide),
   (c10_remaining_payload_wraps 600 4 (by decide) (by decide)).2.1 (by decide)⟩

/-- C1 (code-bug evaluation): a system header declaring payload_length
600 (beyond the 512-byte buffer) does make process_incoming_packets fail,
but only AFTER the payload-phase read has written 596 bytes starting at
offset 4 of the 512-byte buffer: the overflow guard in wait_for_payload
runs after `read` returns, and the length passed to `read` is the
remaining payload, not the remaining buffer capacity.  The recorded write
`(0, 596)` against the 508-byte payload area (absolute range `(4, 596)`
of the 512-byte buffer) is out of bounds even though both functions
return false. -/
theorem c1_overflow_guard_after_oob_write :
    process_incoming_packets exampleSizes (fun _ => 0) ⟨[4], 600, [596]⟩ =
      (.recvFail, [(0, 4), (4, 596)]) ∧
    wait_for_payload 508 596 [596] = (false, [(0, 596)]) ∧
    hasOobWrite 508 [(0, 596)] = true ∧
    hasOobWrite MAX_PAYLOAD_SIZE [(0, 4), (4, 596)] = true ∧
    MAX_PAYLOAD_SIZE < 600 :=
  ⟨rfl, rfl, by decide, by decide, by decide⟩

/-- C4: with the tag-0 catalog entry already populated (packet_size ≠ 0),
process_incoming_packets never silently overwrites it: it either fails
its socket reads (storing nothing) or reaches the store and dies on
`assert(packet_entries[tag].packet_size == 0)`.  In particular a second
store into the occupied slot is a process-terminating invariant
violation, never a silent overwrite. -/
theorem c4_store_occupied_slot_asserts (sz : Sizes) (catalog : Nat → Nat)
    (inp : SocketInput) (hocc : catalog 0 ≠ 0) :
    (process_incoming_packets sz catalog inp).1 = .recvFail ∨
    (process_incoming_packets sz catalog inp).1 = .fatalAssert := by
  simp only [process_incoming_packets]
  split
  · exact .inl rfl
  · split
    · exact .inl rfl
    · exact .inr rfl

/-- Witness for C4: a populated tag-0 entry (size 7) and a socket input
that successfully delivers a full 8-byte packet end in the fatal store
assertion (the recvFail disjunct is refuted by evaluation). -/
theorem c4_witness :
    ((fun _ => 7 : Nat → Nat) 0 ≠ 0) ∧
    ((process_incoming_packets exampleSizes (fun _ => 7) ⟨[4], 8, [4]⟩).1 =
        .recvFail ∨
     (process_incoming_packets exampleSizes (fun _ => 7) ⟨[4], 8, [4]⟩).1 =
        .fatalAssert) :=
  ⟨by decide,
   c4_store_occupied_slot_asserts exampleSizes (fun _ => 7) ⟨[4], 8, [4]⟩
     (by decide)⟩

/-- C7: get_next_tag always returns the constant 0, every send operation
writes tag 0 through its out-parameter, and every packet
process_incoming_packets successfully receives is filed into the packet
catalog at tag 0. -/
theorem c7_tag_always_zero :
    get_next_tag = 0 ∧
    (∀ sz wOk hpa data, (send_cxl_mem_mem_write sz wOk hpa data).1 = 0) ∧
    (∀ sz wOk hpa, (send_cxl_mem_mem_read sz wOk hpa).1 = 0) ∧
    (∀ sz wOk hpa size, (send_cxl_io_mem_read sz wOk hpa size).1 = 0) ∧
    (∀ sz wOk hpa val size,
      (send_cxl_io_mem_write sz wOk hpa val size).1 = 0) ∧
    (∀ sz wOk bdf offset size t0,
      (send_cxl_io_config_space_read sz wOk bdf offset size t0).1 = 0) ∧
    (∀ sz wOk bdf offset val size t0,
      (send_cxl_io_config_space_write sz wOk bdf offset val size t0).1 = 0) ∧
    (∀ sz catalog inp t nc,
      (process_incoming_packets sz catalog inp).1 = .stored t nc → t = 0) :=
  ⟨rfl, fun _ _ _ _ => rfl, fun _ _ _ => rfl, fun _ _ _ _ => rfl,
   fun _ _ _ _ _ => rfl, fun _ _ _ _ _ _ => rfl, fun _ _ _ _ _ _ _ => rfl,
   fun _ _ _ _ _ h => (process_incoming_packets_stored h).1⟩

/-- Witness for C7: a concrete successful receive stores at tag 0. -/
theorem c7_witness :
    (process_incoming_packets exampleSizes (fun _ => 0) ⟨[4], 8, [4]⟩).1 =
      .stored 0 (Function.update (fun _ => 0) 0 8) ∧ (0 : Nat) = 0 :=
  ⟨rfl,
   c7_tag_always_zero.2.2.2.2.2.2.2 exampleSizes (fun _ => 0) ⟨[4], 8, [4]⟩
     0 (Function.update (fun _ => 0) 0 8) rfl⟩

/-- C2 (code-bug evaluation): a CXL.io memory write of size 8 and value
0xFFFFFFFF does build and send the 64-bit MWR_64B variant with data
0xFFFFFFFF, as the claim says; but the same call with size 4 dies on the
off-by-one assertion `assert(val < 0xFFFFFFFF)` (0xFFFFFFFF is a
representable 32-bit value whose truncation the claim asks for) instead
of building the MWR_32B variant.  The third conjunct shows the 32-bit
path is otherwise selected strictly by size 4. -/
theorem c2_size4_max_value_asserts :
    (send_cxl_io_mem_write exampleSizes true 0 0xFFFFFFFF 8).2 =
      .sent64
        { payload_type := payload_type_t.CXL_IO, payload_length := exampleSizes.ioMemWr64,
          fmt_type := .MWR_64B, length_upper := 0, length_lower := 2,
          req_id := 0, tag := 0, addr_lower := 0, addr_upper := 0,
          data := 0xFFFFFFFF } true ∧
    (send_cxl_io_mem_write exampleSizes true 0 0xFFFFFFFF 4).2 =
      .assertFail ∧
    (send_cxl_io_mem_write exampleSizes true 0 0xFFFFFFFE 4).2 =
      .sent32
        { payload_type := payload_type_t.CXL_IO, payload_length := exampleSizes.ioMemWr32,
          fmt_type := .MWR_32B, length_upper := 0, length_lower := 1,
          req_id := 0, tag := 0, addr_lower := 0, addr_upper := 0,
          data := 0xFFFFFFFE } true :=
  ⟨by decide, by decide, by decide⟩

/-- C3 (code-bug evaluation): fill_cxl_io_cfg_req_packet does reject an
offset beyond the 4096-byte space (0x1000) and one whose offset+size
crosses a dword boundary (offset 2, size 4) -- but both configuration
senders discard that boolean: the packet, carrying the all-zero
`= {}`-initialized request header, is still handed to write() and the
functions still return the socket write's success, so the invalid request
is neither withheld from the connection nor reported to the caller. -/
theorem c3_invalid_cfg_request_still_sent :
    fill_cxl_io_cfg_req_packet 0 0x1000 4 0 0 = none ∧
    fill_cxl_io_cfg_req_packet 0 2 4 0 0 = none ∧
    (send_cxl_io_config_space_read exampleSizes true 0 0x1000 4 true).2.2 =
      true ∧
    (send_cxl_io_config_space_read exampleSizes true 0 0x1000 4 true).2.1 =
      { payload_type := payload_type_t.CXL_IO, payload_length := exampleSizes.cfgRd,
        fmt_type := .CFG_RD0, length_upper := 0, length_lower := 1,
        cfg_req_header := zeroCfgReqHeader } ∧
    (send_cxl_io_config_space_write exampleSizes true 0 2 0xAB 4 true).2.2 =
      true ∧
    (send_cxl_io_config_space_write exampleSizes true 0 2 0xAB 4
        true).2.1.cfg_req_header = zeroCfgReqHeader :=
  ⟨rfl, rfl, rfl, by decide, rfl, by decide⟩

/-- Division decomposition: if `S = lo + D * (b + hi * 256)` with
`lo < D` and `b < 256`, then byte extraction `S / D % 256` yields `b`. -/
theorem byte_of_decomp (S lo b hi D : Nat) (hD : 0 < D) (hlo : lo < D)
    (hb : b < 256) (hS : S = lo + D * (b + hi * 256)) : S / D % 256 = b := by
  subst hS
  rw [Nat.add_mul_div_left _ _ hD, Nat.div_eq_of_lt hlo, Nat.zero_add,
    Nat.add_mul_mod_self_right, Nat.mod_eq_of_lt hb]

/-- The modelled htonll really is the byte swap of a 64-bit value: byte i
of `htonll x` is byte (7 - i) of `x`. -/
theorem htonll_byte (x i : Nat) (hig : i < 8) :
    htonll x / 256 ^ i % 256 = x / 256 ^ (7 - i) % 256 := by
  have e0 : x % 256 < 256 := Nat.mod_lt _ (by norm_num)
  have e1 : x / 256 % 256 < 256 := Nat.mod_lt _ (by norm_num)
  have e2 : x / 65536 % 256 < 256 := Nat.mod_lt _ (by norm_num)
  have e3 : x / 16777216 % 256 < 256 := Nat.mod_lt _ (by norm_num)
  have e4 : x / 4294967296 % 256 < 256 := Nat.mod_lt _ (by norm_num)
  have e5 : x / 1099511627776 % 256 < 256 := Nat.mod_lt _ (by norm_num)
  have e6 : x / 281474976710656 % 256 < 256 := Nat.mod_lt _ (by norm_num)
  have e7 : x / 72057594037927936 % 256 < 256 := Nat.mod_lt _ (by norm_num)
  interval_cases i
  · exact byte_of_decomp _ 0 (x / 72057594037927936 % 256)
      (x / 281474976710656 % 256 + x / 1099511627776 % 256 * 256 +
       x / 4294967296 % 256 * 65536 + x / 16777216 % 256 * 16777216 +
       x / 65536 % 256 * 4294967296 + x / 256 % 256 * 1099511627776 +
       x % 256 * 281474976710656) 1 (by norm_num) (by norm_num) e7
      (by show htonll x = _; unfold htonll; ring)
  · exact byte_of_decomp _ (x / 72057594037927936 % 256)
      (x / 281474976710656 % 256)
      (x / 1099511627776 % 256 + x / 4294967296 % 256 * 256 +
       x / 16777216 % 256 * 65536 + x / 65536 % 256 * 16777216 +
       x / 256 % 256 * 4294967296 + x % 256 * 1099511627776) 256
      (by norm_num) (by omega) e6
      (by show htonll x = _; unfold htonll; ring)
  · exact byte_of_decomp _
      (x / 72057594037927936 % 256 + x / 281474976710656 % 256 * 256)
      (x / 1099511627776 % 256)
      (x / 4294967296 % 256 + x / 16777216 % 256 * 256 +
       x / 65536 % 256 * 65536 + x / 256 % 256 * 16777216 +
       x % 256 * 4294967296) 65536
      (by norm_num) (by omega) e5
      (by show htonll x = _; unfold htonll; ring)
  · exact byte_of_decomp _
      (x / 72057594037927936 % 256 + x / 281474976710656 % 256 * 256 +
       x / 1099511627776 % 256 * 65536)
      (x / 4294967296 % 256)
      (x / 16777216 % 256 + x / 65536 % 256 * 256 +
       x / 256 % 256 * 65536 + x % 256 * 16777216) 16777216
      (by norm_num) (by omega) e4
      (by show htonll x = _; unfold htonll; ring)
  · exact byte_of_decomp _
      (x / 72057594037927936 % 256 + x / 281474976710656 % 256 * 256 +
       x / 1099511627776 % 256 * 65536 + x / 4294967296 % 256 * 16777216)
      (x / 16777216 % 256)
      (x / 65536 % 256 + x / 256 % 256 * 256 + x % 256 * 65536) 4294967296
      (by norm_num) (by omega) e3
      (by show htonll x = _; unfold htonll; ring)
  · exact byte_of_decomp _
      (x / 72057594037927936 % 256 + x / 281474976710656 % 256 * 256 +
       x / 1099511627776 % 256 * 65536 + x / 4294967296 % 256 * 16777216 +
       x / 16777216 % 256 * 4294967296)
      (x / 65536 % 256)
      (x / 256 % 256 + x % 256 * 256) 1099511627776
      (by norm_num) (by omega) e2
      (by show htonll x = _; unfold htonll; ring)
  · exact byte_of_decomp _
      (x / 72057594037927936 % 256 + x / 281474976710656 % 256 * 256 +
       x / 1099511627776 % 256 * 65536 + x / 4294967296 % 256 * 16777216 +
       x / 16777216 % 256 * 4294967296 + x / 65536 % 256 * 1099511627776)
      (x / 256 % 256)
      (x % 256) 281474976710656
      (by norm_num) (by omega) e1
      (by show htonll x = _; unfold htonll; ring)
  · simp only [Nat.sub_self, pow_zero, Nat.div_one]
    exact byte_of_decomp _
      (x / 72057594037927936 % 256 + x / 281474976710656 % 256 * 256 +
       x / 1099511627776 % 256 * 65536 + x / 4294967296 % 256 * 16777216 +
       x / 16777216 % 256 * 4294967296 + x / 65536 % 256 * 1099511627776 +
       x / 256 % 256 * 281474976710656)
      (x % 256)
      0 72057594037927936
      (by norm_num) (by omega) e0
      (by show htonll x = _; unfold htonll; ring)

/-- Masking with 0xFF and shifting right by 2 extracts bits [7:2]. -/
theorem and_ff_shiftr2 (x : Nat) : (x &&& 0xFF) >>> 2 = x / 4 % 64 := by
  have h1 : x &&& 255 = x % 256 := by
    have h := Nat.and_pow_two_sub_one_eq_mod x 8
    norm_num at h
    exact h
  have h3 : x % (4 * 64) / 4 = x / 4 % 64 := Nat.mod_mul_right_div_self x 4 64
  rw [h1, Nat.shiftRight_eq_div_pow]
  norm_num at h3 ⊢
  exact h3

/-- Masking with the 56-bit all-ones value is reduction modulo 2^56. -/
theorem and_mask56_eq_mod (x : Nat) : x &&& 0xFFFFFFFFFFFFFF = x % 2 ^ 56 := by
  have h := Nat.and_pow_two_sub_one_eq_mod x 56
  norm_num at h ⊢
  exact h

/-- C8: the encoded CXL.mem write packet carries `addr = hpa >> 6` (the
address divided by the 64-byte access unit; 1 for hpa = 0x40), the
memory-write opcode, a data payload of exactly one CXL.mem access unit,
and a system-header payload length equal to the header size plus the
access unit size. -/
theorem c8_mem_write_packet_fields (sz : Sizes) (writeOk : Bool)
    (hpa : Nat) (data : List Nat) (hhpa : hpa < UINT64_MOD)
    (hdata : CXL_MEM_ACCESS_UNIT ≤ data.length) :
    (send_cxl_mem_mem_write sz writeOk hpa data).2.1.addr = hpa / 2 ^ 6 ∧
    (send_cxl_mem_mem_write sz writeOk hpa data).2.1.mem_opcode = .MEM_WR ∧
    (send_cxl_mem_mem_write sz writeOk hpa data).2.1.data.length =
      CXL_MEM_ACCESS_UNIT ∧
    (send_cxl_mem_mem_write sz writeOk hpa data).2.1.payload_length =
      sz.m2sRwdHeader + CXL_MEM_ACCESS_UNIT ∧
    (send_cxl_mem_mem_write sz writeOk 0x40 data).2.1.addr = 1 := by
  refine ⟨?_, rfl, ?_, rfl,
    by show ((0x40 : Nat) >>> 6) % 2 ^ 58 = 1; decide⟩
  · show (hpa >>> 6) % 2 ^ 58 = hpa / 2 ^ 6
    rw [Nat.shiftRight_eq_div_pow]
    apply Nat.mod_eq_of_lt
    simp only [UINT64_MOD] at hhpa
    norm_num
    omega
  · show (data.take CXL_MEM_ACCESS_UNIT).length = CXL_MEM_ACCESS_UNIT
    rw [List.length_take]
    exact min_eq_left hdata

/-- Witness for C8 at hpa = 0x40 with a 64-byte data buffer. -/
theorem c8_witness :
    (0x40 < UINT64_MOD ∧
      CXL_MEM_ACCESS_UNIT ≤ (List.replicate 64 0).length) ∧
    (send_cxl_mem_mem_write exampleSizes true 0x40
        (List.replicate 64 0)).2.1.addr = 1 ∧
    (send_cxl_mem_mem_write exampleSizes true 0x40
        (List.replicate 64 0)).2.1.payload_length =
      exampleSizes.m2sRwdHeader + CXL_MEM_ACCESS_UNIT :=
  ⟨⟨by decide, by decide⟩,
   (c8_mem_write_packet_fields exampleSizes true 0x40 (List.replicate 64 0)
      (by decide) (by decide)).2.2.2.2,
   (c8_mem_write_packet_fields exampleSizes true 0x40 (List.replicate 64 0)
      (by decide) (by decide)).2.2.2.1⟩

/-- C9: for every dword-aligned CXL.io memory read, the sent packet's
addr_upper field is the byte-swapped (network byte order) 64-bit address
reduced modulo 2^56, and addr_lower is bits [7:2] of the address (the low
6 address bits above the 2-bit dword alignment); the final conjunct
certifies that the modelled htonll really reverses the 8 bytes. -/
theorem c9_io_mem_read_addr_fields (sz : Sizes) (writeOk : Bool)
    (hpa size : Nat) (hsz : size % 4 = 0) :
    (send_cxl_io_mem_read sz writeOk hpa size).2 =
      .sent
        { payload_type := payload_type_t.CXL_IO
          payload_length := sz.ioMemRd
          fmt_type := if size = 4 then .MRD_32B else .MRD_64B
          length_upper := EXTRACT_UPPER_2 (round_up_to_nearest_dword size / 4)
          length_lower := EXTRACT_LOWER_8 (round_up_to_nearest_dword size / 4)
          req_id := 0
          tag := 0
          addr_lower := hpa / 4 % 64
          addr_upper := htonll hpa % 2 ^ 56 }
        writeOk ∧
    (∀ val, val < 0xFFFFFFFFFFFFFFFF →
      (send_cxl_io_mem_write sz writeOk hpa val 8).2 =
        .sent64
          { payload_type := payload_type_t.CXL_IO
            payload_length := sz.ioMemWr64
            fmt_type := .MWR_64B
            length_upper := EXTRACT_UPPER_2 (round_up_to_nearest_dword 8 / 4)
            length_lower := EXTRACT_LOWER_8 (round_up_to_nearest_dword 8 / 4)
            req_id := 0
            tag := 0
            addr_lower := hpa / 4 % 64
            addr_upper := htonll hpa % 2 ^ 56
            data := val }
          writeOk) ∧
    (∀ val, val < 0xFFFFFFFF →
      (send_cxl_io_mem_write sz writeOk hpa val 4).2 =
        .sent32
          { payload_type := payload_type_t.CXL_IO
            payload_length := sz.ioMemWr32
            fmt_type := .MWR_32B
            length_upper := EXTRACT_UPPER_2 (round_up_to_nearest_dword 4 / 4)
            length_lower := EXTRACT_LOWER_8 (round_up_to_nearest_dword 4 / 4)
            req_id := 0
            tag := 0
            addr_lower := hpa / 4 % 64
            addr_upper := htonll hpa % 2 ^ 56
            data := val &&& 0xFFFFFFFF }
          writeOk) ∧
    (∀ i, i < 8 → htonll hpa / 256 ^ i % 256 = hpa / 256 ^ (7 - i) % 256) := by
  refine ⟨?_, ?_, ?_, fun i hig => htonll_byte hpa i hig⟩
  · simp only [send_cxl_io_mem_read, hsz, ne_eq, not_true_eq_false,
      if_false, ite_false]
    norm_num
    rw [and_ff_shiftr2, and_mask56_eq_mod]
    exact ⟨rfl, by norm_num⟩
  · intro val hval
    simp only [send_cxl_io_mem_write]
    norm_num [hval]
    rw [and_ff_shiftr2, and_mask56_eq_mod]
    exact ⟨rfl, by norm_num⟩
  · intro val hval
    simp only [send_cxl_io_mem_write]
    norm_num [hval]
    rw [and_ff_shiftr2, and_mask56_eq_mod]
    exact ⟨rfl, by norm_num⟩

/-- Witness for C9 at an 8-byte read of address 0xFF and at writes of
value 0x12345678 with sizes 8 and 4 at the same address. -/
theorem c9_witness :
    ((8 : Nat) % 4 = 0 ∧ (0x12345678 : Nat) < 0xFFFFFFFFFFFFFFFF ∧
     (0x12345678 : Nat) < 0xFFFFFFFF) ∧
    (send_cxl_io_mem_read exampleSizes true 0xFF 8).2 =
      .sent
        { payload_type := payload_type_t.CXL_IO
          payload_length := exampleSizes.ioMemRd
          fmt_type := if (8 : Nat) = 4 then .MRD_32B else .MRD_64B
          length_upper := EXTRACT_UPPER_2 (round_up_to_nearest_dword 8 / 4)
          length_lower := EXTRACT_LOWER_8 (round_up_to_nearest_dword 8 / 4)
          req_id := 0
          tag := 0
          addr_lower := 0xFF / 4 % 64
          addr_upper := htonll 0xFF % 2 ^ 56 }
        true ∧
    (send_cxl_io_mem_write exampleSizes true 0xFF 0x12345678 8).2 =
      .sent64
        { payload_type := payload_type_t.CXL_IO
          payload_length := exampleSizes.ioMemWr64
          fmt_type := .MWR_64B
          length_upper := EXTRACT_UPPER_2 (round_up_to_nearest_dword 8 / 4)
          length_lower := EXTRACT_LOWER_8 (round_up_to_nearest_dword 8 / 4)
          req_id := 0
          tag := 0
          addr_lower := 0xFF / 4 % 64
          addr_upper := htonll 0xFF % 2 ^ 56
          data := 0x12345678 }
        true ∧
    (send_cxl_io_mem_write exampleSizes true 0xFF 0x12345678 4).2 =
      .sent32
        { payload_type := payload_type_t.CXL_IO
          payload_length := exampleSizes.ioMemWr32
          fmt_type := .MWR_32B
          length_upper := EXTRACT_UPPER_2 (round_up_to_nearest_dword 4 / 4)
          length_lower := EXTRACT_LOWER_8 (round_up_to_nearest_dword 4 / 4)
          req_id := 0
          tag := 0
          addr_lower := 0xFF / 4 % 64
          addr_upper := htonll 0xFF % 2 ^ 56
          data := 0x12345678 &&& 0xFFFFFFFF }
        true :=
  ⟨⟨rfl, by decide, by decide⟩,
   (c9_io_mem_read_addr_fields exampleSizes true 0xFF 8 rfl).1,
   (c9_io_mem_read_addr_fields exampleSizes true 0xFF 8 rfl).2.1 0x12345678
     (by decide),
   (c9_io_mem_read_addr_fields exampleSizes true 0xFF 8 rfl).2.2.1 0x12345678
     (by decide)⟩

/-- Masking with 3 is reduction modulo 4. -/
theorem and3_eq_mod4 (x : Nat) : x &&& 3 = x % 4 := by
  have h := Nat.and_pow_two_sub_one_eq_mod x 2
  norm_num at h
  exact h

/-- Shifting right by 2 and masking with 0x3F extracts bits [7:2]. -/
theorem shiftr2_and3f (x : Nat) : (x >>> 2) &&& 0x3F = x / 4 % 64 := by
  have h := Nat.and_pow_two_sub_one_eq_mod (x >>> 2) 6
  rw [Nat.shiftRight_eq_div_pow] at h
  rw [Nat.shiftRight_eq_div_pow]
  norm_num at h ⊢
  exact h

/-- Shifting right by 8 and masking with 0xF extracts bits [11:8]. -/
theorem shiftr8_andf (x : Nat) : (x >>> 8) &&& 0xF = x / 256 % 16 := by
  have h := Nat.and_pow_two_sub_one_eq_mod (x >>> 8) 4
  rw [Nat.shiftRight_eq_div_pow] at h
  rw [Nat.shiftRight_eq_div_pow]
  norm_num at h ⊢
  exact h

/-- The byte-enable loop computes the contiguous mask of `n` bits
starting at bit `o`, for the in-range offsets and sizes the guard in
fill_cxl_io_cfg_req_packet admits. -/
theorem firstDwBeLoop_eq (o n : Nat) (h : o + n ≤ 4) :
    firstDwBeLoop n o 0 = (2 ^ n - 1) * 2 ^ o := by
  have ho : o ≤ 4 := by omega
  have hn : n ≤ 4 := by omega
  interval_cases o <;> interval_cases n <;> decide

/-- Bit j of the contiguous mask of `n` bits starting at bit `o` is set
exactly for the touched byte lanes `o ≤ j < o + n`. -/
theorem testBit_be_mask (n o j : Nat) :
    Nat.testBit ((2 ^ n - 1) * 2 ^ o) j = true ↔ o ≤ j ∧ j < o + n := by
  rw [← Nat.shiftLeft_eq, Nat.testBit_shiftLeft]
  simp only [Nat.testBit_two_pow_sub_one, Bool.and_eq_true, decide_eq_true_eq,
    ge_iff_le]
  omega

/-- C5: for every in-range configuration request, the filled header has
dest_id equal to the bus/device/function id in network byte order
(htons), reg_num equal to bits [7:2] of the offset, ext_reg_num equal to
bits [11:8], and a first-dword byte-enable with exactly one bit per
touched byte lane starting at bit (offset & 0x3); and the concrete
configuration read at offset 0x04 of size 2 yields byte-enable 0b0011,
dest_id 0 and a payload-length equal to the fixed configuration-read
packet size. -/
theorem c5_cfg_req_header_fields (sz : Sizes) (bdf cfg_addr size tagv : Nat)
    (hoff : cfg_addr ≤ 0xFFF) (hcross : cfg_addr % 4 + size ≤ 4) :
    fill_cxl_io_cfg_req_packet bdf cfg_addr size 0 tagv =
      some { req_id := htons 0, tag := tagv,
             first_dw_be := (2 ^ size - 1) * 2 ^ (cfg_addr % 4),
             last_dw_be := 0, dest_id := htons bdf,
             ext_reg_num := cfg_addr / 256 % 16,
             reg_num := cfg_addr / 4 % 64 } ∧
    (∀ j, Nat.testBit ((2 ^ size - 1) * 2 ^ (cfg_addr % 4)) j = true ↔
      cfg_addr % 4 ≤ j ∧ j < cfg_addr % 4 + size) ∧
    (send_cxl_io_config_space_read sz true 0 4 2
        true).2.1.cfg_req_header.first_dw_be = 3 ∧
    (send_cxl_io_config_space_read sz true 0 4 2
        true).2.1.cfg_req_header.dest_id = 0 ∧
    (send_cxl_io_config_space_read sz true 0 4 2 true).2.1.payload_length =
      sz.cfgRd := by
  refine ⟨?_, fun j => testBit_be_mask size (cfg_addr % 4) j,
    by
      show ((fill_cxl_io_cfg_req_packet 0 4 2 0 get_next_tag).getD
        zeroCfgReqHeader).first_dw_be = 3
      decide,
    by
      show ((fill_cxl_io_cfg_req_packet 0 4 2 0 get_next_tag).getD
        zeroCfgReqHeader).dest_id = 0
      decide, rfl⟩
  simp only [fill_cxl_io_cfg_req_packet, and3_eq_mod4]
  rw [if_neg (by omega), if_neg (by omega), firstDwBeLoop_eq _ _ hcross,
    shiftr2_and3f, shiftr8_andf]

/-- Witness for C5: configuration read for bdf 0x0123 at offset 4,
size 2. -/
theorem c5_witness :
    ((4 : Nat) ≤ 0xFFF ∧ 4 % 4 + 2 ≤ 4) ∧
    fill_cxl_io_cfg_req_packet 0x0123 4 2 0 0 =
      some { req_id := htons 0, tag := 0,
             first_dw_be := (2 ^ 2 - 1) * 2 ^ (4 % 4),
             last_dw_be := 0, dest_id := htons 0x0123,
             ext_reg_num := 4 / 256 % 16,
             reg_num := 4 / 4 % 64 } :=
  ⟨⟨by decide, by decide⟩,
   (c5_cfg_req_header_fields exampleSizes 0x0123 4 2 0 (by decide)
      (by decide)).1⟩

/-!
Auxiliary facts for the wait-loop size-mismatch analysis: the sideband
and CXL.mem wait variants carry no size assertion of their own, so a
populated entry of the wrong size makes them loop; the loop can only end
in a receive failure (NULL) or in process_incoming_packets's store
assertion, never in returning the mis-sized entry.
-/

/-- A populated, mismatched entry makes wait_for_cxl_mem_completion end
in conFailed or in the store assertion. -/
theorem wait_mem_ndr_mismatch (sz : Sizes) (tag : Nat) :
    ∀ (inputs : List SocketInput) (catalog : Nat → Nat),
      0 < catalog tag → catalog tag ≠ sz.s2mNdr →
      wait_for_cxl_mem_completion sz tag catalog inputs = .conFailed ∨
      wait_for_cxl_mem_completion sz tag catalog inputs = .fatalAssert := by
  intro inputs
  induction inputs with
  | nil =>
    intro catalog hpos hne
    simp only [wait_for_cxl_mem_completion, if_neg hne]
    trivial
  | cons inp rest ih =>
    intro catalog hpos hne
    simp only [wait_for_cxl_mem_completion, if_neg hne]
    cases hproc : (process_incoming_packets sz catalog inp).1 with
    | recvFail => exact .inl rfl
    | fatalAssert => exact .inr rfl
    | stored t nc =>
      obtain ⟨ht, hcat0, hnc⟩ := process_incoming_packets_stored hproc
      by_cases htag : tag = 0
      · rw [htag] at hpos
        omega
      · have hval : nc tag = catalog tag := by
          rw [hnc]
          exact Function.update_noteq htag _ _
        exact ih nc (by rw [hval]; exact hpos) (by rw [hval]; exact hne)

/-- A populated, mismatched entry makes wait_for_cxl_mem_mem_data end in
conFailed or in the store assertion. -/
theorem wait_mem_drs_mismatch (sz : Sizes) (tag : Nat) :
    ∀ (inputs : List SocketInput) (catalog : Nat → Nat),
      0 < catalog tag → catalog tag ≠ sz.s2mDrs →
      wait_for_cxl_mem_mem_data sz tag catalog inputs = .conFailed ∨
      wait_for_cxl_mem_mem_data sz tag catalog inputs = .fatalAssert := by
  intro inputs
  induction inputs with
  | nil =>
    intro catalog hpos hne
    simp only [wait_for_cxl_mem_mem_data, if_neg hne]
    trivial
  | cons inp rest ih =>
    intro catalog hpos hne
    simp only [wait_for_cxl_mem_mem_data, if_neg hne]
    cases hproc : (process_incoming_packets sz catalog inp).1 with
    | recvFail => exact .inl rfl
    | fatalAssert => exact .inr rfl
    | stored t nc =>
      obtain ⟨ht, hcat0, hnc⟩ := process_incoming_packets_stored hproc
      by_cases htag : tag = 0
      · rw [htag] at hpos
        omega
      · have hval : nc tag = catalog tag := by
          rw [hnc]
          exact Function.update_noteq htag _ _
        exact ih nc (by rw [hval]; exact hpos) (by rw [hval]; exact hne)

/-- A populated, mismatched tag-0 entry makes
wait_for_base_sideband_packet end in conFailed or in the store
assertion. -/
theorem wait_sideband_mismatch (sz : Sizes) (inputs : List SocketInput)
    (catalog : Nat → Nat) (hpos : 0 < catalog 0)
    (hne : catalog 0 ≠ sz.baseSideband) :
    wait_for_base_sideband_packet sz catalog inputs = .conFailed ∨
    wait_for_base_sideband_packet sz catalog inputs = .fatalAssert := by
  cases inputs with
  | nil =>
    simp only [wait_for_base_sideband_packet, if_neg hne]
    trivial
  | cons inp rest =>
    simp only [wait_for_base_sideband_packet, if_neg hne]
    cases hproc : (process_incoming_packets sz catalog inp).1 with
    | recvFail => exact .inl rfl
    | fatalAssert => exact .inr rfl
    | stored t nc =>
      obtain ⟨-, hcat0, -⟩ := process_incoming_packets_stored hproc
      omega

/-- C6 counterexample: the claim says EVERY wait variant treats a
populated entry of mismatched size as a failed assertion, but
wait_for_cxl_mem_completion, on a populated tag-0 entry of size 13
(different from its expected no-data completion size) with a socket that
yields nothing more, returns NULL (conFailed) -- an ordinary failure
return, not a fatal assertion. -/
theorem c6_mem_mismatch_not_asserted :
    (0 : Nat) < 13 ∧ (13 : Nat) ≠ exampleSizes.s2mNdr ∧
    wait_for_cxl_mem_completion exampleSizes 0 (fun _ => 13) [] =
      .conFailed ∧
    wait_for_cxl_mem_completion exampleSizes 0 (fun _ => 13) [] ≠
      .fatalAssert :=
  ⟨by decide, by decide, rfl, by decide⟩

/-- C6 amended: only the CXL.io completion wait variants assert a
populated entry's size themselves; the sideband and CXL.mem variants
never return a mis-sized entry, but end either in a NULL/failure return
(when receiving fails) or in process_incoming_packets's store assertion
(when another packet does arrive over the occupied slot). -/
theorem c6_amended_mismatch_handling :
    (∀ sz tag catalog (inputs : List SocketInput),
      0 < catalog tag → catalog tag ≠ Sizes.ioCpl sz →
      wait_for_cxl_io_completion sz tag catalog inputs = .fatalAssert) ∧
    (∀ sz tag catalog (inputs : List SocketInput),
      0 < catalog tag → catalog tag ≠ Sizes.ioCplData32 sz →
      catalog tag ≠ Sizes.ioCplData64 sz →
      wait_for_cxl_io_completion_data sz tag catalog inputs = .fatalAssert) ∧
    (∀ sz tag catalog (inputs : List SocketInput),
      0 < catalog tag → catalog tag ≠ Sizes.s2mNdr sz →
      wait_for_cxl_mem_completion sz tag catalog inputs = .conFailed ∨
      wait_for_cxl_mem_completion sz tag catalog inputs = .fatalAssert) ∧
    (∀ sz tag catalog (inputs : List SocketInput),
      0 < catalog tag → catalog tag ≠ Sizes.s2mDrs sz →
      wait_for_cxl_mem_mem_data sz tag catalog inputs = .conFailed ∨
      wait_for_cxl_mem_mem_data sz tag catalog inputs = .fatalAssert) ∧
    (∀ sz catalog (inputs : List SocketInput),
      0 < catalog 0 → catalog 0 ≠ Sizes.baseSideband sz →
      wait_for_base_sideband_packet sz catalog inputs = .conFailed ∨
      wait_for_base_sideband_packet sz catalog inputs = .fatalAssert) := by
  refine ⟨?_, ?_,
    fun sz tag catalog inputs hpos hne =>
      wait_mem_ndr_mismatch sz tag inputs catalog hpos hne,
    fun sz tag catalog inputs hpos hne =>
      wait_mem_drs_mismatch sz tag inputs catalog hpos hne,
    fun sz catalog inputs hpos hne =>
      wait_sideband_mismatch sz inputs catalog hpos hne⟩
  · intro sz tag catalog inputs hpos hne
    cases inputs with
    | nil =>
      simp only [wait_for_cxl_io_completion]
      rw [if_pos hpos, if_neg hne]
    | cons inp rest =>
      simp only [wait_for_cxl_io_completion]
      rw [if_pos hpos, if_neg hne]
  · intro sz tag catalog inputs hpos h32 h64
    cases inputs with
    | nil =>
      simp only [wait_for_cxl_io_completion_data]
      rw [if_pos hpos, if_neg (not_or.mpr ⟨h32, h64⟩)]
    | cons inp rest =>
      simp only [wait_for_cxl_io_completion_data]
      rw [if_pos hpos, if_neg (not_or.mpr ⟨h32, h64⟩)]

/-- Witness for the amended C6 at a populated entry of size 13 and an
exhausted socket. -/
theorem c6_witness :
    ((0 : Nat) < 13 ∧ (13 : Nat) ≠ exampleSizes.ioCpl ∧
     (13 : Nat) ≠ exampleSizes.ioCplData32 ∧
     (13 : Nat) ≠ exampleSizes.ioCplData64 ∧
     (13 : Nat) ≠ exampleSizes.s2mDrs ∧
     (13 : Nat) ≠ exampleSizes.baseSideband) ∧
    wait_for_cxl_io_completion exampleSizes 0 (fun _ => 13) [] =
      .fatalAssert ∧
    wait_for_cxl_io_completion_data exampleSizes 0 (fun _ => 13) [] =
      .fatalAssert ∧
    (wait_for_cxl_mem_mem_data exampleSizes 0 (fun _ => 13) [] =
        .conFailed ∨
     wait_for_cxl_mem_mem_data exampleSizes 0 (fun _ => 13) [] =
        .fatalAssert) ∧
    (wait_for_base_sideband_packet exampleSizes (fun _ => 13) [] =
        .conFailed ∨
     wait_for_base_sideband_packet exampleSizes (fun _ => 13) [] =
        .fatalAssert) :=
  ⟨by decide,
   c6_amended_mismatch_handling.1 exampleSizes 0 (fun _ => 13) []
     (by decide) (by decide),
   c6_amended_mismatch_handling.2.1 exampleSizes 0 (fun _ => 13) []
     (by decide) (by decide) (by decide),
   c6_amended_mismatch_handling.2.2.2.1 exampleSizes 0 (fun _ => 13) []
     (by decide) (by decide),
   c6_amended_mismatch_handling.2.2.2.2 exampleSizes (fun _ => 13) []
     (by decide) (by decide)⟩

end CxlSocketTransport
